import Mathlib

/-!
Verification development for the core alarm-aggregation engine of the
AlarmNotifications repository (files alarmserverconnector.cpp / .h and
alarmstatusentry.cpp / .h). The C++ classes are shallowly embedded: the
status map becomes an association list with distinct keys, timestamps
(time_t, a 64-bit long int on the target platform) become Int, the
unsigned-int timeouts become Nat, and the periodic watcher and flash-light
loops become explicit step functions that return the successor state
together with the list of collaborator invocations (actions) they perform.
-/

namespace AlarmNotifications

/-- Timestamps of type time_t, modelled as unbounded integers (the target
platform uses a 64-bit long int, and no arithmetic in the modelled code can
overflow it within the program's lifetime). -/
abbrev Time := Int

/-- Sentinel value AlarmServerConnector::noAlarmActive, defined in the header
as std::numeric_limits<long int>::min(), i.e. -2^63. -/
def noAlarmActive : Time := -(2 ^ 63)

/-- Value type AlarmStatusEntry (alarmstatusentry.h): one PV's alarm state. -/
structure AlarmStatusEntry where
  pvname : String
  severity : String
  status : String
  triggertime : Time
  desktopNotificationSent : Bool
  emailNotificationSent : Bool
deriving DecidableEq

/-- Constructor AlarmStatusEntry(pvname, severity, status): the C++ version
sets _triggertime to std::time(nullptr), passed here explicitly as now; both
notification flags start false. -/
def mkEntry (pvname severity status : String) (now : Time) : AlarmStatusEntry :=
  ⟨pvname, severity, status, now, false, false⟩

/-- Method AlarmStatusEntry::update(newdata): overwrites _severity and
_status only when the stored _triggertime is strictly smaller than the
incoming record's _triggertime; nothing else is ever modified. -/
def AlarmStatusEntry.update (e newdata : AlarmStatusEntry) : AlarmStatusEntry :=
  if e.triggertime < newdata.triggertime then
    { e with severity := newdata.severity, status := newdata.status }
  else e

/-- Setter AlarmStatusEntry::setDesktopNotificationSent. -/
def AlarmStatusEntry.setDesktopNotificationSent (e : AlarmStatusEntry) (b : Bool) : AlarmStatusEntry :=
  { e with desktopNotificationSent := b }

/-- Setter AlarmStatusEntry::setEmailNotificationSent. -/
def AlarmStatusEntry.setEmailNotificationSent (e : AlarmStatusEntry) (b : Bool) : AlarmStatusEntry :=
  { e with emailNotificationSent := b }

/-- Method AlarmServerConnector::checkSeverityString. The C++ body is:
severity == "OK" returns true; otherwise the test
severity.substr(severity.length()-4, 4) == "_ACK" decides. The position
severity.length()-4 is computed in size_t, so for length() < 4 it wraps
around to a value larger than length() and substr throws std::out_of_range,
modelled as Except.error (); for length() >= 4 the expression denotes the
last four characters. -/
def checkSeverityString (severity : String) : Except Unit Bool :=
  if severity = "OK" then .ok true
  else if severity.length < 4 then .error ()
  else .ok ((severity.drop (severity.length - 4)).take 4 == "_ACK")

/-- Modelled from the spec: the pure classification function
IsCleared(severity) of section 4.2, true if severity equals "OK" or the last
4 characters equal "_ACK", with severities shorter than 4 characters handled
without error and treated as not-cleared. Kept separate from the code-level
checkSeverityString so the two can be compared. -/
def IsClearedSpec (severity : String) : Bool :=
  severity == "OK" || (severity.drop (severity.length - 4)).take 4 == "_ACK"

/-- Association-list model of the std::map<std::string, AlarmStatusEntry>
field _statusmap: keys are pairwise distinct in every reachable state;
mapFind models _statusmap.find, returning the entry stored under a key. -/
def mapFind : List (String × AlarmStatusEntry) → String → Option AlarmStatusEntry
  | [], _ => none
  | p :: rest, pv => if p.1 = pv then some p.2 else mapFind rest pv

/-- Model of _statusmap.erase(entry): with distinct keys, erasing the found
entry is the same as removing every pair carrying that key. -/
def mapErase (m : List (String × AlarmStatusEntry)) (pv : String) : List (String × AlarmStatusEntry) :=
  m.filter (fun p => p.1 != pv)

/-- Model of the in-place mutation (*entry).second.update(status) through a
map iterator: apply f to the value stored under the given key. -/
def mapUpdate (m : List (String × AlarmStatusEntry)) (pv : String)
    (f : AlarmStatusEntry → AlarmStatusEntry) : List (String × AlarmStatusEntry) :=
  m.map (fun p => if p.1 = pv then (p.1, f p.2) else p)

/-- Key list of the status map. -/
def mapKeys (m : List (String × AlarmStatusEntry)) : List String :=
  m.map Prod.fst

/-- State of an AlarmServerConnector instance: the constructor flags, the
status map, the _oldestAlarm timestamp and the _flashlighton flag. The
threading machinery (_runwatcher, the two boost::thread members and the
mutexes) is replaced by explicit step functions below. -/
structure AlarmServerConnector where
  desktopVersion : Bool
  activateBeedo : Bool
  statusmap : List (String × AlarmStatusEntry)
  oldestAlarm : Time
  flashlighton : Bool
deriving DecidableEq

/-- State established by the constructor's initializer list: empty map,
_oldestAlarm = noAlarmActive, _flashlighton = false. -/
def initialState (desktopVersion activateBeedo : Bool) : AlarmServerConnector :=
  { desktopVersion := desktopVersion
    activateBeedo := activateBeedo
    statusmap := []
    oldestAlarm := noAlarmActive
    flashlighton := false }

/-- Constructor AlarmServerConnector(desktopVersion, activateBeedo): throws
std::logic_error (modelled as Except.error ()) when activateBeedo is set
while desktopVersion is not — the Beedo optoacoustic alarm is only available
in desktop mode. -/
def construct (desktopVersion activateBeedo : Bool) : Except Unit AlarmServerConnector :=
  if !desktopVersion && activateBeedo then .error ()
  else .ok (initialState desktopVersion activateBeedo)

/-- Method AlarmServerConnector::notifyStatusChange(status). A cleared
severity removes the entry (if present); a live severity inserts a fresh
entry or updates the present one via AlarmStatusEntry::update, and then sets
_oldestAlarm to the report's trigger time when it currently holds the
sentinel. When checkSeverityString throws (severity shorter than 4 and not
"OK"), the exception propagates before any mutation, so the state is
unchanged. -/
def notifyStatusChange (s : AlarmServerConnector) (status : AlarmStatusEntry) : AlarmServerConnector :=
  match checkSeverityString status.severity with
  | .error _ => s
  | .ok true => { s with statusmap := mapErase s.statusmap status.pvname }
  | .ok false =>
    let m := match mapFind s.statusmap status.pvname with
      | none => s.statusmap ++ [(status.pvname, status)]
      | some _ => mapUpdate s.statusmap status.pvname (fun e => e.update status)
    { s with
      statusmap := m
      oldestAlarm := if s.oldestAlarm = noAlarmActive then status.triggertime else s.oldestAlarm }

/-- Method AlarmServerConnector::getNumberOfAlarms: size of the status map. -/
def getNumberOfAlarms (s : AlarmServerConnector) : Nat :=
  s.statusmap.length

/-- Collaborator invocations performed by the background loops: the Beedo
engine start/stop calls, the dispatch of a desktop or e-mail notification
batch (the detached sender thread), and the flash-light hardware calls. -/
inductive Action where
  | beedoStop : Action
  | beedoStart : Action
  | desktopBatch : List AlarmStatusEntry → Action
  | emailBatch : List AlarmStatusEntry → Action
  | flashOn : Action
  | flashOff : Action
deriving DecidableEq

/-- Selection condition of the loop in prepareDesktopNotification: the
record's trigger time is at least desktopNotificationTimeout seconds old and
its desktop flag is still unset. -/
def desktopDue (now : Time) (timeout : Nat) (e : AlarmStatusEntry) : Bool :=
  decide (e.triggertime + (timeout : Int) ≤ now) && !e.desktopNotificationSent

/-- Effect of one iteration of the prepareDesktopNotification loop on one
record: a due record has its desktop flag set, all others stay unchanged. -/
def desktopMark (now : Time) (timeout : Nat) (e : AlarmStatusEntry) : AlarmStatusEntry :=
  if desktopDue now timeout e then e.setDesktopNotificationSent true else e

/-- Effect of one iteration of the prepareEMailNotification loop on one
record: a record whose e-mail flag is unset has it set, all others stay
unchanged. -/
def emailMark (e : AlarmStatusEntry) : AlarmStatusEntry :=
  if !e.emailNotificationSent then e.setEmailNotificationSent true else e

/-- Method AlarmServerConnector::prepareDesktopNotification, with the two
conversation-time inputs made explicit: now is std::time(nullptr) and
timeout is AlarmConfiguration::getDesktopNotificationTimeout() (re-read from
the configuration on every call). A timeout of 0 disables the channel. Every
due record has its desktop flag set and a copy (taken after the flag was
set, so with the flag true) is collected into the returned batch; an empty
batch spawns no sender thread. -/
def prepareDesktopNotification (s : AlarmServerConnector) (now : Time) (timeout : Nat) :
    AlarmServerConnector × List AlarmStatusEntry :=
  if timeout = 0 then (s, [])
  else
    ({ s with statusmap := s.statusmap.map (fun p => (p.1, desktopMark now timeout p.2)) },
     (s.statusmap.filter (fun p => desktopDue now timeout p.2)).map
        (fun p => p.2.setDesktopNotificationSent true))

/-- Method AlarmServerConnector::prepareEMailNotification, with timeout =
AlarmConfiguration::getEMailNotificationTimeout() made explicit. The desktop
version returns immediately; a timeout of 0 disables the channel. Unlike the
desktop path, the per-record trigger-time comparison is commented out in the
source, so every record whose e-mail flag is unset is selected, marked and
copied (flag already true) into the batch. -/
def prepareEMailNotification (s : AlarmServerConnector) (timeout : Nat) :
    AlarmServerConnector × List AlarmStatusEntry :=
  if s.desktopVersion then (s, [])
  else if timeout = 0 then (s, [])
  else
    ({ s with statusmap := s.statusmap.map (fun p => (p.1, emailMark p.2)) },
     (s.statusmap.filter (fun p => !p.2.emailNotificationSent)).map
        (fun p => p.2.setEmailNotificationSent true))

/-- First block of AlarmServerConnector::checkStatusMap: when the map is
empty but _oldestAlarm still holds a timestamp, reset it to the sentinel and
stop the Beedo engine if it is active. -/
def checkStatusMapReset (s : AlarmServerConnector) : AlarmServerConnector × List Action :=
  if s.statusmap.length = 0 ∧ s.oldestAlarm ≠ noAlarmActive then
    ({ s with oldestAlarm := noAlarmActive },
     if s.activateBeedo then [Action.beedoStop] else [])
  else (s, [])

/-- Second block of AlarmServerConnector::checkStatusMap: when the map is
non-empty and the oldest alarm is at least desktopNotificationTimeout
seconds old, prepare a desktop notification (dispatching the batch in a
detached thread when non-empty) and start the Beedo engine if active. -/
def checkStatusMapDesktop (s : AlarmServerConnector) (now : Time) (timeout : Nat) :
    AlarmServerConnector × List Action :=
  if s.statusmap.length ≠ 0 ∧ s.oldestAlarm + (timeout : Int) ≤ now then
    ((prepareDesktopNotification s now timeout).1,
     (if (prepareDesktopNotification s now timeout).2.isEmpty then []
      else [Action.desktopBatch (prepareDesktopNotification s now timeout).2]) ++
     (if s.activateBeedo then [Action.beedoStart] else []))
  else (s, [])

/-- Third block of AlarmServerConnector::checkStatusMap: when the map is
non-empty and the oldest alarm is at least eMailNotificationTimeout seconds
old, prepare an e-mail notification. -/
def checkStatusMapEmail (s : AlarmServerConnector) (now : Time) (timeout : Nat) :
    AlarmServerConnector × List Action :=
  if s.statusmap.length ≠ 0 ∧ s.oldestAlarm + (timeout : Int) ≤ now then
    ((prepareEMailNotification s timeout).1,
     if (prepareEMailNotification s timeout).2.isEmpty then []
     else [Action.emailBatch (prepareEMailNotification s timeout).2])
  else (s, [])

/-- Method AlarmServerConnector::checkStatusMap, one tick of the watcher
loop: the three blocks above in sequence, with now = std::time(nullptr) and
the two timeouts re-read from the configuration on each tick. -/
def checkStatusMap (s : AlarmServerConnector) (now : Time) (desktopTimeout emailTimeout : Nat) :
    AlarmServerConnector × List Action :=
  let r1 := checkStatusMapReset s
  let r2 := checkStatusMapDesktop r1.1 now desktopTimeout
  let r3 := checkStatusMapEmail r2.1 now emailTimeout
  (r3.1, r1.2 ++ r2.2 ++ r3.2)

/-- Method AlarmServerConnector::switchFlashLightOn: a laboratory timeout of
0 disables the flash light entirely; otherwise set _flashlighton and call
FlashLight::switchOn(). -/
def switchFlashLightOn (s : AlarmServerConnector) (labTimeout : Nat) :
    AlarmServerConnector × List Action :=
  if labTimeout = 0 then (s, [])
  else ({ s with flashlighton := true }, [Action.flashOn])

/-- Method AlarmServerConnector::switchFlashLightOff: a laboratory timeout
of 0 disables the flash light entirely; otherwise clear _flashlighton and
call FlashLight::switchOff(). -/
def switchFlashLightOff (s : AlarmServerConnector) (labTimeout : Nat) :
    AlarmServerConnector × List Action :=
  if labTimeout = 0 then (s, [])
  else ({ s with flashlighton := false }, [Action.flashOff])

/-- One iteration of the loop body of AlarmServerConnector::operateFlashLight
(the loop only runs in server mode), with now = std::time(nullptr) and
labTimeout = AlarmConfiguration::getLaboratoryNotificationTimeout() re-read
each second: switch the light on when it is off, alarms exist and the oldest
one is old enough; switch it off when it is on and the map is empty. -/
def operateFlashLightTick (s : AlarmServerConnector) (now : Time) (labTimeout : Nat) :
    AlarmServerConnector × List Action :=
  let r1 :=
    if s.flashlighton = false ∧ s.statusmap.length ≠ 0
        ∧ s.oldestAlarm + (labTimeout : Int) ≤ now then
      switchFlashLightOn s labTimeout
    else (s, [])
  let r2 :=
    if r1.1.flashlighton = true ∧ r1.1.statusmap.length = 0 then
      switchFlashLightOff r1.1 labTimeout
    else (r1.1, [])
  (r2.1, r1.2 ++ r2.2)

/-- One observable event of an execution: an incoming report delivered by
the CMSClient (calling notifyStatusChange), one tick of the watcher loop, or
one tick of the flash-light loop. The timeout parameters carry the
configuration values read during that tick. -/
inductive Step where
  | report : AlarmStatusEntry → Step
  | watch : Time → Nat → Nat → Step
  | flash : Time → Nat → Step
deriving DecidableEq

/-- Effect of a single step on the connector state, together with the
collaborator actions it performs (a report performs none). -/
def stepRun (s : AlarmServerConnector) : Step → AlarmServerConnector × List Action
  | .report e => (notifyStatusChange s e, [])
  | .watch now dT eT => checkStatusMap s now dT eT
  | .flash now lT => operateFlashLightTick s now lT

/-- Execution of a finite interleaving of reports and loop ticks, collecting
all actions in order. -/
def run (s : AlarmServerConnector) : List Step → AlarmServerConnector × List Action
  | [] => (s, [])
  | st :: rest =>
    let r := stepRun s st
    let r2 := run r.1 rest
    (r2.1, r.2 ++ r2.2)

/-- Folding a list of reports into the state, the sequential composition of
notifyStatusChange calls (no concurrent ticks). -/
def applyReports (s : AlarmServerConnector) (reports : List AlarmStatusEntry) : AlarmServerConnector :=
  reports.foldl notifyStatusChange s

/-- Specification-side predicate: the last report of a sequence concerning a
given entity, if any. -/
def lastReportFor (reports : List AlarmStatusEntry) (pv : String) : Option AlarmStatusEntry :=
  (reports.filter (fun e => e.pvname == pv)).getLast?

/-- Specification-side predicate: an entity is live after a report sequence
when its most recent report exists and carries a non-cleared severity. -/
def liveAfter (reports : List AlarmStatusEntry) (pv : String) : Bool :=
  match lastReportFor reports pv with
  | some e => !IsClearedSpec e.severity
  | none => false

/-- Specification-side count: the number of distinct entity ids whose most
recent report in the sequence had a non-cleared severity. -/
def specLiveCount (reports : List AlarmStatusEntry) : Nat :=
  (((reports.map AlarmStatusEntry.pvname).dedup).filter (liveAfter reports)).length

/-- Well-formed severity strings: exactly "OK" or at least four characters
long; on these checkSeverityString cannot throw. -/
def severityWellFormed (severity : String) : Prop :=
  severity = "OK" ∨ 4 ≤ severity.length

/-- Monotonicity of the two one-shot notification flags between an old and a
new version of a record: a flag that is true stays true. -/
def flagsMono (b a : AlarmStatusEntry) : Prop :=
  (b.desktopNotificationSent = true → a.desktopNotificationSent = true) ∧
  (b.emailNotificationSent = true → a.emailNotificationSent = true)

instance (severity : String) : Decidable (severityWellFormed severity) :=
  inferInstanceAs (Decidable (_ ∨ _))

instance {ε α : Type} [DecidableEq ε] [DecidableEq α] : DecidableEq (Except ε α) := fun a b =>
  match a, b with
  | .error x, .error y =>
    if h : x = y then isTrue (h ▸ rfl) else isFalse (fun hc => h (by cases hc; rfl))
  | .ok x, .ok y =>
    if h : x = y then isTrue (h ▸ rfl) else isFalse (fun hc => h (by cases hc; rfl))
  | .error _, .ok _ => isFalse (fun hc => Except.noConfusion hc)
  | .ok _, .error _ => isFalse (fun hc => Except.noConfusion hc)

/-! Helper lemmas about the association-list model of the status map. -/

theorem mapFind_eq_none {m : List (String × AlarmStatusEntry)} {pv : String} :
    mapFind m pv = none ↔ pv ∉ mapKeys m := by
  induction m with
  | nil => simp [mapFind, mapKeys]
  | cons p rest ih =>
    by_cases h : p.1 = pv
    · simp [mapFind, h, mapKeys]
    · simp [mapFind, h, mapKeys, ih, Ne.symm h]

theorem mapFind_mem_keys {m : List (String × AlarmStatusEntry)} {pv : String}
    {e : AlarmStatusEntry} (h : mapFind m pv = some e) : pv ∈ mapKeys m := by
  by_contra hc
  rw [mapFind_eq_none.mpr hc] at h
  cases h

theorem mem_mapKeys_mapErase {m : List (String × AlarmStatusEntry)} {pv pv' : String} :
    pv' ∈ mapKeys (mapErase m pv) ↔ pv' ∈ mapKeys m ∧ pv' ≠ pv := by
  simp only [mapErase, mapKeys, List.mem_map, List.mem_filter, bne_iff_ne]
  constructor
  · rintro ⟨p, ⟨hp, hne⟩, rfl⟩
    exact ⟨⟨p, hp, rfl⟩, hne⟩
  · rintro ⟨⟨p, hp, rfl⟩, hne⟩
    exact ⟨p, ⟨hp, hne⟩, rfl⟩

theorem mapKeys_mapErase_sublist (m : List (String × AlarmStatusEntry)) (pv : String) :
    (mapKeys (mapErase m pv)).Sublist (mapKeys m) :=
  List.Sublist.map Prod.fst (List.filter_sublist m)

theorem mapFind_mapErase {m : List (String × AlarmStatusEntry)} {pv pv' : String} :
    mapFind (mapErase m pv) pv' = if pv' = pv then none else mapFind m pv' := by
  induction m with
  | nil =>
    simp only [mapErase, List.filter_nil, mapFind]
    split <;> rfl
  | cons p rest ih =>
    by_cases hp : p.1 = pv
    · have hstep : mapErase (p :: rest) pv = mapErase rest pv := by
        simp [mapErase, List.filter_cons, hp]
      rw [hstep, ih]
      by_cases hpv : pv' = pv
      · simp [hpv]
      · have hne : p.1 ≠ pv' := fun h => hpv (by rw [← h, hp])
        simp [hpv, mapFind, hne]
    · have hstep : mapErase (p :: rest) pv = p :: mapErase rest pv := by
        simp [mapErase, List.filter_cons, hp]
      rw [hstep]
      by_cases hh : p.1 = pv'
      · have hne : ¬ pv' = pv := fun h => hp (hh.trans h)
        simp [mapFind, hh, hne]
      · simp [mapFind, hh, ih]

theorem mapFind_mapValues (h : String → AlarmStatusEntry → AlarmStatusEntry)
    (m : List (String × AlarmStatusEntry)) (pv : String) :
    mapFind (m.map (fun p => (p.1, h p.1 p.2))) pv = (mapFind m pv).map (h pv) := by
  induction m with
  | nil => rfl
  | cons p rest ih =>
    by_cases hh : p.1 = pv
    · subst hh
      simp [mapFind, ih]
    · simp [mapFind, hh, ih]

theorem mapKeys_mapValues (g : String → AlarmStatusEntry → AlarmStatusEntry)
    (m : List (String × AlarmStatusEntry)) :
    mapKeys (m.map (fun p => (p.1, g p.1 p.2))) = mapKeys m := by
  induction m with
  | nil => rfl
  | cons p rest ih => simp [mapKeys] at ih ⊢

theorem mapUpdate_eq_mapValues (m : List (String × AlarmStatusEntry)) (pv : String)
    (f : AlarmStatusEntry → AlarmStatusEntry) :
    mapUpdate m pv f = m.map (fun p => (p.1, if p.1 = pv then f p.2 else p.2)) := by
  unfold mapUpdate
  induction m with
  | nil => rfl
  | cons p rest ih =>
    simp only [List.map_cons, List.cons.injEq]
    refine ⟨?_, ih⟩
    split <;> rfl

theorem mapFind_mapUpdate {m : List (String × AlarmStatusEntry)} {pv pv' : String}
    {f : AlarmStatusEntry → AlarmStatusEntry} :
    mapFind (mapUpdate m pv f) pv' =
      if pv' = pv then (mapFind m pv').map f else mapFind m pv' := by
  rw [mapUpdate_eq_mapValues, mapFind_mapValues (fun k e => if k = pv then f e else e)]
  by_cases hpv : pv' = pv
  · simp [hpv]
  · simp only [hpv, if_false]
    cases mapFind m pv' <;> simp [hpv]

theorem mapKeys_mapUpdate {m : List (String × AlarmStatusEntry)} {pv : String}
    {f : AlarmStatusEntry → AlarmStatusEntry} :
    mapKeys (mapUpdate m pv f) = mapKeys m := by
  rw [mapUpdate_eq_mapValues]
  exact mapKeys_mapValues (fun k e => if k = pv then f e else e) m

theorem mapFind_append_of_none {m1 m2 : List (String × AlarmStatusEntry)} {pv : String}
    (h : mapFind m1 pv = none) : mapFind (m1 ++ m2) pv = mapFind m2 pv := by
  induction m1 with
  | nil => rfl
  | cons p rest ih =>
    by_cases hh : p.1 = pv
    · rw [mapFind, if_pos hh] at h
      cases h
    · rw [mapFind, if_neg hh] at h
      rw [List.cons_append, mapFind, if_neg hh]
      exact ih h

theorem mapFind_append_of_some {m1 m2 : List (String × AlarmStatusEntry)} {pv : String}
    {e : AlarmStatusEntry} (h : mapFind m1 pv = some e) : mapFind (m1 ++ m2) pv = some e := by
  induction m1 with
  | nil => cases h
  | cons p rest ih =>
    by_cases hh : p.1 = pv
    · rw [mapFind, if_pos hh] at h
      rw [List.cons_append, mapFind, if_pos hh]
      exact h
    · rw [mapFind, if_neg hh] at h
      rw [List.cons_append, mapFind, if_neg hh]
      exact ih h

/-! Bridge between the code-level classifier and its specification. -/

theorem checkSeverityString_wellFormed {sev : String} (h : severityWellFormed sev) :
    checkSeverityString sev = .ok (IsClearedSpec sev) := by
  rcases h with h | h
  · subst h
    rfl
  · have hne : sev ≠ "OK" := by
      intro he
      subst he
      exact absurd h (by decide)
    unfold checkSeverityString IsClearedSpec
    rw [if_neg hne, if_neg (by omega : ¬ sev.length < 4)]
    have hbeq : (sev == "OK") = false := beq_eq_false_iff_ne.mpr hne
    rw [hbeq, Bool.false_or]

/-! Branch lemmas for notifyStatusChange. -/

theorem notifyStatusChange_of_raise {s : AlarmServerConnector} {e : AlarmStatusEntry}
    (h : checkSeverityString e.severity = .error ()) : notifyStatusChange s e = s := by
  unfold notifyStatusChange
  rw [h]

theorem notifyStatusChange_of_cleared {s : AlarmServerConnector} {e : AlarmStatusEntry}
    (h : checkSeverityString e.severity = .ok true) :
    notifyStatusChange s e = { s with statusmap := mapErase s.statusmap e.pvname } := by
  unfold notifyStatusChange
  rw [h]

theorem notifyStatusChange_live_absent {s : AlarmServerConnector} {e : AlarmStatusEntry}
    (h : checkSeverityString e.severity = .ok false)
    (hf : mapFind s.statusmap e.pvname = none) :
    notifyStatusChange s e =
      { s with
        statusmap := s.statusmap ++ [(e.pvname, e)]
        oldestAlarm := if s.oldestAlarm = noAlarmActive then e.triggertime else s.oldestAlarm } := by
  unfold notifyStatusChange
  rw [h]
  simp [hf]

theorem notifyStatusChange_live_present {s : AlarmServerConnector} {e old : AlarmStatusEntry}
    (h : checkSeverityString e.severity = .ok false)
    (hf : mapFind s.statusmap e.pvname = some old) :
    notifyStatusChange s e =
      { s with
        statusmap := mapUpdate s.statusmap e.pvname (fun x => x.update e)
        oldestAlarm := if s.oldestAlarm = noAlarmActive then e.triggertime else s.oldestAlarm } := by
  unfold notifyStatusChange
  rw [h]
  simp [hf]

/-! Key-set and key-distinctness facts about notifyStatusChange. -/

theorem mem_mapKeys_notify {s : AlarmServerConnector} {e : AlarmStatusEntry} {pv : String}
    (hwf : severityWellFormed e.severity) :
    pv ∈ mapKeys (notifyStatusChange s e).statusmap ↔
      (if pv = e.pvname then IsClearedSpec e.severity = false
       else pv ∈ mapKeys s.statusmap) := by
  have hc := checkSeverityString_wellFormed hwf
  cases hcl : IsClearedSpec e.severity
  · rw [hcl] at hc
    cases hf : mapFind s.statusmap e.pvname with
    | none =>
      rw [notifyStatusChange_live_absent hc hf]
      by_cases hpv : pv = e.pvname
      · subst hpv
        simp [mapKeys]
      · simp [mapKeys, hpv, Ne.symm hpv]
    | some old =>
      rw [notifyStatusChange_live_present hc hf]
      by_cases hpv : pv = e.pvname
      · subst hpv
        simp only [mapKeys_mapUpdate, if_pos rfl]
        simp [mapFind_mem_keys hf]
      · simp [mapKeys_mapUpdate, hpv]
  · rw [hcl] at hc
    rw [notifyStatusChange_of_cleared hc]
    by_cases hpv : pv = e.pvname
    · subst hpv
      simp [mem_mapKeys_mapErase]
    · simp [mem_mapKeys_mapErase, hpv]

theorem nodup_mapKeys_notify {s : AlarmServerConnector} {e : AlarmStatusEntry}
    (hn : (mapKeys s.statusmap).Nodup) :
    (mapKeys (notifyStatusChange s e).statusmap).Nodup := by
  cases hc : checkSeverityString e.severity with
  | error u =>
    cases u
    rw [notifyStatusChange_of_raise hc]
    exact hn
  | ok b =>
    cases b
    · cases hf : mapFind s.statusmap e.pvname with
      | none =>
        rw [notifyStatusChange_live_absent hc hf]
        simp only [mapKeys, List.map_append, List.map_cons, List.map_nil]
        refine List.Nodup.append hn (List.nodup_singleton _) ?_
        intro a ha hb
        rw [List.mem_singleton] at hb
        subst hb
        exact (mapFind_eq_none.mp hf) ha
      | some old =>
        rw [notifyStatusChange_live_present hc hf]
        simp only [mapKeys_mapUpdate]
        exact hn
    · rw [notifyStatusChange_of_cleared hc]
      exact List.Nodup.sublist (mapKeys_mapErase_sublist _ _) hn

/-! Facts about the specification-side liveness predicate. -/

theorem liveAfter_concat (reports : List AlarmStatusEntry) (r : AlarmStatusEntry) (pv : String) :
    liveAfter (reports ++ [r]) pv =
      if pv = r.pvname then !IsClearedSpec r.severity else liveAfter reports pv := by
  unfold liveAfter lastReportFor
  rw [List.filter_append]
  by_cases h : pv = r.pvname
  · have : List.filter (fun e => e.pvname == pv) [r] = [r] := by
      simp [List.filter_cons, h.symm]
    rw [this, List.getLast?_concat, if_pos h]
  · have : List.filter (fun e => e.pvname == pv) [r] = [] := by
      simp [List.filter_cons]
      exact fun hc => h hc.symm
    rw [this, List.append_nil, if_neg h]

theorem liveAfter_true_mem {reports : List AlarmStatusEntry} {pv : String}
    (h : liveAfter reports pv = true) : pv ∈ reports.map AlarmStatusEntry.pvname := by
  unfold liveAfter lastReportFor at h
  cases hl : (reports.filter (fun e => e.pvname == pv)).getLast? with
  | none =>
    rw [hl] at h
    cases h
  | some e =>
    have he : e ∈ reports.filter (fun x => x.pvname == pv) :=
      List.mem_of_mem_getLast? (Option.mem_def.mpr hl)
    rcases List.mem_filter.mp he with ⟨hmem, hpv⟩
    rw [beq_iff_eq] at hpv
    exact List.mem_map.mpr ⟨e, hmem, hpv⟩

theorem mem_keys_applyReports {d b : Bool} (reports : List AlarmStatusEntry)
    (hWF : ∀ e ∈ reports, severityWellFormed e.severity) (pv : String) :
    pv ∈ mapKeys (applyReports (initialState d b) reports).statusmap ↔
      liveAfter reports pv = true := by
  induction reports using List.reverseRecOn with
  | nil => simp [applyReports, initialState, mapKeys, liveAfter, lastReportFor]
  | append_singleton l r ih =>
    have hWFl : ∀ e ∈ l, severityWellFormed e.severity := fun e he => hWF e (by simp [he])
    have hWFr : severityWellFormed r.severity := hWF r (by simp)
    have happ : applyReports (initialState d b) (l ++ [r]) =
        notifyStatusChange (applyReports (initialState d b) l) r := by
      unfold applyReports
      rw [List.foldl_append]
      rfl
    rw [happ, mem_mapKeys_notify hWFr, liveAfter_concat]
    by_cases hpv : pv = r.pvname
    · simp only [hpv, if_pos rfl]
      cases IsClearedSpec r.severity <;> simp
    · simp only [hpv, if_neg hpv]
      exact ih hWFl

theorem nodup_keys_applyReports {d b : Bool} (reports : List AlarmStatusEntry) :
    (mapKeys (applyReports (initialState d b) reports).statusmap).Nodup := by
  induction reports using List.reverseRecOn with
  | nil => simp [applyReports, initialState, mapKeys]
  | append_singleton l r ih =>
    have happ : applyReports (initialState d b) (l ++ [r]) =
        notifyStatusChange (applyReports (initialState d b) l) r := by
      unfold applyReports
      rw [List.foldl_append]
      rfl
    rw [happ]
    exact nodup_mapKeys_notify ih

/-! Key-independent corollaries of the value-mapping lemmas. -/

theorem mapFind_mapValuesSimple (g : AlarmStatusEntry → AlarmStatusEntry)
    (m : List (String × AlarmStatusEntry)) (pv : String) :
    mapFind (m.map (fun p => (p.1, g p.2))) pv = (mapFind m pv).map g :=
  mapFind_mapValues (fun _ e => g e) m pv

theorem mapKeys_mapValuesSimple (g : AlarmStatusEntry → AlarmStatusEntry)
    (m : List (String × AlarmStatusEntry)) :
    mapKeys (m.map (fun p => (p.1, g p.2))) = mapKeys m :=
  mapKeys_mapValues (fun _ e => g e) m

theorem mapFind_of_mem_nodup {m : List (String × AlarmStatusEntry)}
    (hn : (mapKeys m).Nodup) {p : String × AlarmStatusEntry} (hp : p ∈ m) :
    mapFind m p.1 = some p.2 := by
  induction m with
  | nil => cases hp
  | cons q rest ih =>
    rcases List.mem_cons.mp hp with h | h
    · subst h
      rw [mapFind, if_pos rfl]
    · by_cases hq : q.1 = p.1
      · exfalso
        have hkey : p.1 ∈ mapKeys rest := List.mem_map.mpr ⟨p, h, rfl⟩
        exact absurd (hq ▸ hkey) ((List.nodup_cons.mp hn).1)
      · rw [mapFind, if_neg hq]
        exact ih (List.nodup_cons.mp hn).2 h

/-! Frame lemmas: which state fields each operation leaves unchanged. -/

theorem notifyStatusChange_frame (s : AlarmServerConnector) (e : AlarmStatusEntry) :
    (notifyStatusChange s e).desktopVersion = s.desktopVersion ∧
    (notifyStatusChange s e).activateBeedo = s.activateBeedo ∧
    (notifyStatusChange s e).flashlighton = s.flashlighton := by
  unfold notifyStatusChange
  cases checkSeverityString e.severity with
  | error u => exact ⟨rfl, rfl, rfl⟩
  | ok b =>
    cases b
    · exact ⟨rfl, rfl, rfl⟩
    · exact ⟨rfl, rfl, rfl⟩

theorem prepareDesktopNotification_fields (s : AlarmServerConnector) (now : Time) (t : Nat) :
    (prepareDesktopNotification s now t).1.desktopVersion = s.desktopVersion ∧
    (prepareDesktopNotification s now t).1.activateBeedo = s.activateBeedo ∧
    (prepareDesktopNotification s now t).1.oldestAlarm = s.oldestAlarm ∧
    (prepareDesktopNotification s now t).1.flashlighton = s.flashlighton := by
  unfold prepareDesktopNotification
  split <;> exact ⟨rfl, rfl, rfl, rfl⟩

theorem prepareEMailNotification_fields (s : AlarmServerConnector) (t : Nat) :
    (prepareEMailNotification s t).1.desktopVersion = s.desktopVersion ∧
    (prepareEMailNotification s t).1.activateBeedo = s.activateBeedo ∧
    (prepareEMailNotification s t).1.oldestAlarm = s.oldestAlarm ∧
    (prepareEMailNotification s t).1.flashlighton = s.flashlighton := by
  unfold prepareEMailNotification
  split
  · exact ⟨rfl, rfl, rfl, rfl⟩
  · split <;> exact ⟨rfl, rfl, rfl, rfl⟩

theorem checkStatusMapReset_fields (s : AlarmServerConnector) :
    (checkStatusMapReset s).1.statusmap = s.statusmap ∧
    (checkStatusMapReset s).1.desktopVersion = s.desktopVersion ∧
    (checkStatusMapReset s).1.activateBeedo = s.activateBeedo ∧
    (checkStatusMapReset s).1.flashlighton = s.flashlighton := by
  unfold checkStatusMapReset
  split <;> exact ⟨rfl, rfl, rfl, rfl⟩

theorem checkStatusMapReset_oldest (s : AlarmServerConnector) :
    (checkStatusMapReset s).1.oldestAlarm =
      if s.statusmap.length = 0 then noAlarmActive else s.oldestAlarm := by
  unfold checkStatusMapReset
  by_cases h1 : s.statusmap.length = 0
  · by_cases h2 : s.oldestAlarm = noAlarmActive
    · rw [if_neg (fun hc => hc.2 h2), if_pos h1]
      exact h2
    · rw [if_pos ⟨h1, h2⟩, if_pos h1]
  · rw [if_neg (fun hc => h1 hc.1), if_neg h1]

theorem checkStatusMapDesktop_fields (s : AlarmServerConnector) (now : Time) (t : Nat) :
    (checkStatusMapDesktop s now t).1.desktopVersion = s.desktopVersion ∧
    (checkStatusMapDesktop s now t).1.activateBeedo = s.activateBeedo ∧
    (checkStatusMapDesktop s now t).1.oldestAlarm = s.oldestAlarm ∧
    (checkStatusMapDesktop s now t).1.flashlighton = s.flashlighton := by
  unfold checkStatusMapDesktop
  split
  · exact prepareDesktopNotification_fields s now t
  · exact ⟨rfl, rfl, rfl, rfl⟩

theorem checkStatusMapEmail_fields (s : AlarmServerConnector) (now : Time) (t : Nat) :
    (checkStatusMapEmail s now t).1.desktopVersion = s.desktopVersion ∧
    (checkStatusMapEmail s now t).1.activateBeedo = s.activateBeedo ∧
    (checkStatusMapEmail s now t).1.oldestAlarm = s.oldestAlarm ∧
    (checkStatusMapEmail s now t).1.flashlighton = s.flashlighton := by
  unfold checkStatusMapEmail
  split
  · exact prepareEMailNotification_fields s t
  · exact ⟨rfl, rfl, rfl, rfl⟩

theorem checkStatusMap_fields (s : AlarmServerConnector) (now : Time) (dT eT : Nat) :
    (checkStatusMap s now dT eT).1.desktopVersion = s.desktopVersion ∧
    (checkStatusMap s now dT eT).1.activateBeedo = s.activateBeedo ∧
    (checkStatusMap s now dT eT).1.flashlighton = s.flashlighton := by
  unfold checkStatusMap
  refine ⟨?_, ?_, ?_⟩
  · rw [(checkStatusMapEmail_fields _ _ _).1, (checkStatusMapDesktop_fields _ _ _).1,
      (checkStatusMapReset_fields _).2.1]
  · rw [(checkStatusMapEmail_fields _ _ _).2.1, (checkStatusMapDesktop_fields _ _ _).2.1,
      (checkStatusMapReset_fields _).2.2.1]
  · rw [(checkStatusMapEmail_fields _ _ _).2.2.2, (checkStatusMapDesktop_fields _ _ _).2.2.2,
      (checkStatusMapReset_fields _).2.2.2]

theorem checkStatusMap_oldest (s : AlarmServerConnector) (now : Time) (dT eT : Nat) :
    (checkStatusMap s now dT eT).1.oldestAlarm =
      if s.statusmap.length = 0 then noAlarmActive else s.oldestAlarm := by
  unfold checkStatusMap
  rw [(checkStatusMapEmail_fields _ _ _).2.2.1, (checkStatusMapDesktop_fields _ _ _).2.2.1,
    checkStatusMapReset_oldest]

theorem switchFlashLightOn_fields (s : AlarmServerConnector) (t : Nat) :
    (switchFlashLightOn s t).1.desktopVersion = s.desktopVersion ∧
    (switchFlashLightOn s t).1.activateBeedo = s.activateBeedo ∧
    (switchFlashLightOn s t).1.statusmap = s.statusmap ∧
    (switchFlashLightOn s t).1.oldestAlarm = s.oldestAlarm := by
  unfold switchFlashLightOn
  split <;> exact ⟨rfl, rfl, rfl, rfl⟩

theorem switchFlashLightOff_fields (s : AlarmServerConnector) (t : Nat) :
    (switchFlashLightOff s t).1.desktopVersion = s.desktopVersion ∧
    (switchFlashLightOff s t).1.activateBeedo = s.activateBeedo ∧
    (switchFlashLightOff s t).1.statusmap = s.statusmap ∧
    (switchFlashLightOff s t).1.oldestAlarm = s.oldestAlarm := by
  unfold switchFlashLightOff
  split <;> exact ⟨rfl, rfl, rfl, rfl⟩

theorem operateFlashLightTick_fields (s : AlarmServerConnector) (now : Time) (t : Nat) :
    (operateFlashLightTick s now t).1.desktopVersion = s.desktopVersion ∧
    (operateFlashLightTick s now t).1.activateBeedo = s.activateBeedo ∧
    (operateFlashLightTick s now t).1.statusmap = s.statusmap ∧
    (operateFlashLightTick s now t).1.oldestAlarm = s.oldestAlarm := by
  unfold operateFlashLightTick switchFlashLightOn switchFlashLightOff
  dsimp only
  split <;> split <;> (try split) <;> exact ⟨rfl, rfl, rfl, rfl⟩

theorem operateFlashLightTick_zero (s : AlarmServerConnector) (now : Time) :
    operateFlashLightTick s now 0 = (s, []) := by
  unfold operateFlashLightTick switchFlashLightOn switchFlashLightOff
  simp

/-! Which actions each loop block can emit. -/

theorem checkStatusMapReset_actions (s : AlarmServerConnector) :
    ∀ a ∈ (checkStatusMapReset s).2, a = Action.beedoStop := by
  unfold checkStatusMapReset
  split
  · split <;> simp
  · simp

theorem checkStatusMapDesktop_actions (s : AlarmServerConnector) (now : Time) (t : Nat) :
    ∀ a ∈ (checkStatusMapDesktop s now t).2,
      (∃ l, a = Action.desktopBatch l) ∨ a = Action.beedoStart := by
  unfold checkStatusMapDesktop
  split
  · intro a ha
    rcases List.mem_append.mp ha with h | h
    · split at h
      · cases h
      · rw [List.mem_singleton] at h
        exact Or.inl ⟨_, h⟩
    · split at h
      · rw [List.mem_singleton] at h
        exact Or.inr h
      · cases h
  · intro a ha
    cases ha

theorem checkStatusMapEmail_actions (s : AlarmServerConnector) (now : Time) (t : Nat) :
    ∀ a ∈ (checkStatusMapEmail s now t).2, ∃ l, a = Action.emailBatch l := by
  unfold checkStatusMapEmail
  split
  · intro a ha
    split at ha
    · cases ha
    · rw [List.mem_singleton] at ha
      exact ⟨_, ha⟩
  · intro a ha
    cases ha

theorem checkStatusMap_actions (s : AlarmServerConnector) (now : Time) (dT eT : Nat) :
    ∀ a ∈ (checkStatusMap s now dT eT).2,
      a = Action.beedoStop ∨ (∃ l, a = Action.desktopBatch l) ∨ a = Action.beedoStart ∨
      (∃ l, a = Action.emailBatch l) := by
  unfold checkStatusMap
  intro a ha
  rcases List.mem_append.mp ha with h | h
  · rcases List.mem_append.mp h with h1 | h2
    · exact Or.inl (checkStatusMapReset_actions s a h1)
    · rcases checkStatusMapDesktop_actions _ now dT a h2 with h' | h'
      · exact Or.inr (Or.inl h')
      · exact Or.inr (Or.inr (Or.inl h'))
  · exact Or.inr (Or.inr (Or.inr (checkStatusMapEmail_actions _ now eT a h)))

theorem operateFlashLightTick_actions (s : AlarmServerConnector) (now : Time) (t : Nat) :
    ∀ a ∈ (operateFlashLightTick s now t).2, a = Action.flashOn ∨ a = Action.flashOff := by
  unfold operateFlashLightTick switchFlashLightOn switchFlashLightOff
  dsimp only
  split <;> split <;> (try split) <;> intro a ha <;> simp at ha <;> simp [ha]

/-! Flag monotonicity of the record-level operations. -/

theorem update_frame (e newdata : AlarmStatusEntry) :
    (e.update newdata).pvname = e.pvname ∧
    (e.update newdata).triggertime = e.triggertime ∧
    (e.update newdata).desktopNotificationSent = e.desktopNotificationSent ∧
    (e.update newdata).emailNotificationSent = e.emailNotificationSent := by
  unfold AlarmStatusEntry.update
  split <;> exact ⟨rfl, rfl, rfl, rfl⟩

theorem flagsMono_refl (e : AlarmStatusEntry) : flagsMono e e :=
  ⟨fun h => h, fun h => h⟩

theorem flagsMono_trans {a b c : AlarmStatusEntry} (h1 : flagsMono a b) (h2 : flagsMono b c) :
    flagsMono a c :=
  ⟨fun h => h2.1 (h1.1 h), fun h => h2.2 (h1.2 h)⟩

theorem flagsMono_update (e newdata : AlarmStatusEntry) : flagsMono e (e.update newdata) :=
  ⟨fun h => ((update_frame e newdata).2.2.1).trans h,
   fun h => ((update_frame e newdata).2.2.2).trans h⟩

theorem flagsMono_desktopMark (now : Time) (t : Nat) (e : AlarmStatusEntry) :
    flagsMono e (desktopMark now t e) := by
  unfold desktopMark AlarmStatusEntry.setDesktopNotificationSent
  split
  · exact ⟨fun _ => rfl, fun h => h⟩
  · exact flagsMono_refl e

theorem flagsMono_emailMark (e : AlarmStatusEntry) : flagsMono e (emailMark e) := by
  unfold emailMark AlarmStatusEntry.setEmailNotificationSent
  split
  · exact ⟨fun h => h, fun _ => rfl⟩
  · exact flagsMono_refl e

/-! Existence of a flag-monotone successor entry through each operation. -/

theorem prepareDesktopNotification_mono {s : AlarmServerConnector} {pv : String}
    {b : AlarmStatusEntry} (now : Time) (t : Nat) (h : mapFind s.statusmap pv = some b) :
    ∃ a, mapFind (prepareDesktopNotification s now t).1.statusmap pv = some a ∧ flagsMono b a := by
  unfold prepareDesktopNotification
  split
  · exact ⟨b, h, flagsMono_refl b⟩
  · refine ⟨desktopMark now t b, ?_, flagsMono_desktopMark now t b⟩
    show mapFind (s.statusmap.map (fun p => (p.1, desktopMark now t p.2))) pv =
      some (desktopMark now t b)
    rw [mapFind_mapValuesSimple, h]
    rfl

theorem prepareEMailNotification_mono {s : AlarmServerConnector} {pv : String}
    {b : AlarmStatusEntry} (t : Nat) (h : mapFind s.statusmap pv = some b) :
    ∃ a, mapFind (prepareEMailNotification s t).1.statusmap pv = some a ∧ flagsMono b a := by
  unfold prepareEMailNotification
  split
  · exact ⟨b, h, flagsMono_refl b⟩
  · split
    · exact ⟨b, h, flagsMono_refl b⟩
    · refine ⟨emailMark b, ?_, flagsMono_emailMark b⟩
      show mapFind (s.statusmap.map (fun p => (p.1, emailMark p.2))) pv = some (emailMark b)
      rw [mapFind_mapValuesSimple, h]
      rfl

theorem checkStatusMapDesktop_mono {s : AlarmServerConnector} {pv : String}
    {b : AlarmStatusEntry} (now : Time) (t : Nat) (h : mapFind s.statusmap pv = some b) :
    ∃ a, mapFind (checkStatusMapDesktop s now t).1.statusmap pv = some a ∧ flagsMono b a := by
  unfold checkStatusMapDesktop
  split
  · exact prepareDesktopNotification_mono now t h
  · exact ⟨b, h, flagsMono_refl b⟩

theorem checkStatusMapEmail_mono {s : AlarmServerConnector} {pv : String}
    {b : AlarmStatusEntry} (now : Time) (t : Nat) (h : mapFind s.statusmap pv = some b) :
    ∃ a, mapFind (checkStatusMapEmail s now t).1.statusmap pv = some a ∧ flagsMono b a := by
  unfold checkStatusMapEmail
  split
  · exact prepareEMailNotification_mono t h
  · exact ⟨b, h, flagsMono_refl b⟩

theorem checkStatusMap_mono {s : AlarmServerConnector} {pv : String} {b : AlarmStatusEntry}
    (now : Time) (dT eT : Nat) (h : mapFind s.statusmap pv = some b) :
    ∃ a, mapFind (checkStatusMap s now dT eT).1.statusmap pv = some a ∧ flagsMono b a := by
  unfold checkStatusMap
  have h1 : mapFind (checkStatusMapReset s).1.statusmap pv = some b := by
    rw [(checkStatusMapReset_fields s).1]
    exact h
  obtain ⟨a2, ha2, hm2⟩ := checkStatusMapDesktop_mono now dT h1
  obtain ⟨a3, ha3, hm3⟩ := checkStatusMapEmail_mono now eT ha2
  exact ⟨a3, ha3, flagsMono_trans hm2 hm3⟩

theorem notifyStatusChange_mono {s : AlarmServerConnector} {e : AlarmStatusEntry} {pv : String}
    {b a : AlarmStatusEntry} (hb : mapFind s.statusmap pv = some b)
    (ha : mapFind (notifyStatusChange s e).statusmap pv = some a) : flagsMono b a := by
  cases hc : checkSeverityString e.severity with
  | error u =>
    cases u
    rw [notifyStatusChange_of_raise hc, hb] at ha
    cases ha
    exact flagsMono_refl b
  | ok bb =>
    cases bb
    · cases hf : mapFind s.statusmap e.pvname with
      | none =>
        rw [notifyStatusChange_live_absent hc hf] at ha
        have : mapFind (s.statusmap ++ [(e.pvname, e)]) pv = some b := mapFind_append_of_some hb
        rw [show ({ s with
              statusmap := s.statusmap ++ [(e.pvname, e)]
              oldestAlarm := if s.oldestAlarm = noAlarmActive then e.triggertime
                else s.oldestAlarm } : AlarmServerConnector).statusmap =
            s.statusmap ++ [(e.pvname, e)] from rfl, this] at ha
        cases ha
        exact flagsMono_refl b
      | some old =>
        rw [notifyStatusChange_live_present hc hf] at ha
        rw [show ({ s with
              statusmap := mapUpdate s.statusmap e.pvname (fun x => x.update e)
              oldestAlarm := if s.oldestAlarm = noAlarmActive then e.triggertime
                else s.oldestAlarm } : AlarmServerConnector).statusmap =
            mapUpdate s.statusmap e.pvname (fun x => x.update e) from rfl,
          mapFind_mapUpdate] at ha
        by_cases hpv : pv = e.pvname
        · rw [if_pos hpv, hb] at ha
          cases ha
          exact flagsMono_update b e
        · rw [if_neg hpv, hb] at ha
          cases ha
          exact flagsMono_refl b
    · rw [notifyStatusChange_of_cleared hc] at ha
      rw [show ({ s with statusmap := mapErase s.statusmap e.pvname } :
            AlarmServerConnector).statusmap = mapErase s.statusmap e.pvname from rfl,
        mapFind_mapErase] at ha
      by_cases hpv : pv = e.pvname
      · rw [if_pos hpv] at ha
        cases ha
      · rw [if_neg hpv, hb] at ha
        cases ha
        exact flagsMono_refl b

theorem stepRun_mono {s : AlarmServerConnector} {st : Step} {pv : String}
    {b a : AlarmStatusEntry} (hb : mapFind s.statusmap pv = some b)
    (ha : mapFind (stepRun s st).1.statusmap pv = some a) : flagsMono b a := by
  cases st with
  | report e => exact notifyStatusChange_mono hb ha
  | watch now dT eT =>
    obtain ⟨a', ha', hm⟩ := checkStatusMap_mono now dT eT hb
    rw [show stepRun s (Step.watch now dT eT) = checkStatusMap s now dT eT from rfl] at ha
    rw [ha'] at ha
    cases ha
    exact hm
  | flash now lT =>
    rw [show stepRun s (Step.flash now lT) = operateFlashLightTick s now lT from rfl,
      (operateFlashLightTick_fields s now lT).2.2.1, hb] at ha
    cases ha
    exact flagsMono_refl b

/-! Run-level helper lemmas. -/

theorem stepRun_desktopVersion (s : AlarmServerConnector) (st : Step) :
    (stepRun s st).1.desktopVersion = s.desktopVersion := by
  cases st with
  | report e => exact (notifyStatusChange_frame s e).1
  | watch now dT eT => exact (checkStatusMap_fields s now dT eT).1
  | flash now lT => exact (operateFlashLightTick_fields s now lT).1

theorem prepareEMailNotification_desktop (s : AlarmServerConnector) (t : Nat)
    (hd : s.desktopVersion = true) : prepareEMailNotification s t = (s, []) := by
  unfold prepareEMailNotification
  rw [if_pos hd]

theorem checkStatusMapEmail_desktop (s : AlarmServerConnector) (now : Time) (t : Nat)
    (hd : s.desktopVersion = true) : (checkStatusMapEmail s now t).2 = [] := by
  unfold checkStatusMapEmail
  split
  · simp [prepareEMailNotification_desktop s t hd]
  · rfl

theorem run_desktop_no_email (trace : List Step) :
    ∀ s : AlarmServerConnector, s.desktopVersion = true →
      ∀ l, Action.emailBatch l ∉ (run s trace).2 := by
  induction trace with
  | nil =>
    intro s hd l h
    simp [run] at h
  | cons st rest ih =>
    intro s hd l hmem
    have hmem' : Action.emailBatch l ∈ (stepRun s st).2 ++ (run (stepRun s st).1 rest).2 := hmem
    rcases List.mem_append.mp hmem' with h | h
    · cases st with
      | report e => cases h
      | watch now dT eT =>
        have hd1 : (checkStatusMapReset s).1.desktopVersion = true := by
          rw [(checkStatusMapReset_fields s).2.1]
          exact hd
        have hd2 : (checkStatusMapDesktop (checkStatusMapReset s).1 now dT).1.desktopVersion
            = true := by
          rw [(checkStatusMapDesktop_fields _ _ _).1]
          exact hd1
        have h' : Action.emailBatch l ∈
            (checkStatusMapReset s).2 ++
            ((checkStatusMapDesktop (checkStatusMapReset s).1 now dT).2 ++
             (checkStatusMapEmail (checkStatusMapDesktop (checkStatusMapReset s).1 now dT).1
               now eT).2) := by
          have happ : (checkStatusMapReset s).2 ++
              (checkStatusMapDesktop (checkStatusMapReset s).1 now dT).2 ++
              (checkStatusMapEmail (checkStatusMapDesktop (checkStatusMapReset s).1 now dT).1
                now eT).2 =
              (checkStatusMapReset s).2 ++
              ((checkStatusMapDesktop (checkStatusMapReset s).1 now dT).2 ++
               (checkStatusMapEmail (checkStatusMapDesktop (checkStatusMapReset s).1 now dT).1
                 now eT).2) := List.append_assoc _ _ _
          rw [← happ]
          exact h
        rcases List.mem_append.mp h' with h1 | h23
        · exact Action.noConfusion (checkStatusMapReset_actions s _ h1)
        · rcases List.mem_append.mp h23 with h2 | h3
          · rcases checkStatusMapDesktop_actions _ now dT _ h2 with ⟨l', hl⟩ | hl <;>
              exact Action.noConfusion hl
          · rw [checkStatusMapEmail_desktop _ now eT hd2] at h3
            cases h3
      | flash now lT =>
        rcases operateFlashLightTick_actions s now lT _ h with h' | h' <;>
          exact Action.noConfusion h'
    · exact ih (stepRun s st).1 (by rw [stepRun_desktopVersion]; exact hd) l h

theorem run_flashlight_off (trace : List Step) :
    ∀ s : AlarmServerConnector, s.flashlighton = false →
      (∀ now t, Step.flash now t ∈ trace → t = 0) →
      (run s trace).1.flashlighton = false ∧ Action.flashOn ∉ (run s trace).2 := by
  induction trace with
  | nil =>
    intro s hoff _
    exact ⟨hoff, by simp [run]⟩
  | cons st rest ih =>
    intro s hoff hzero
    have hzr : ∀ now t, Step.flash now t ∈ rest → t = 0 :=
      fun now t h => hzero now t (List.mem_cons_of_mem _ h)
    cases st with
    | report e =>
      have hoff1 : (stepRun s (Step.report e)).1.flashlighton = false := by
        rw [show (stepRun s (Step.report e)).1 = notifyStatusChange s e from rfl,
          (notifyStatusChange_frame s e).2.2]
        exact hoff
      obtain ⟨h1, h2⟩ := ih (stepRun s (Step.report e)).1 hoff1 hzr
      refine ⟨h1, ?_⟩
      intro hmem
      have hmem' : Action.flashOn ∈ (stepRun s (Step.report e)).2 ++
          (run (stepRun s (Step.report e)).1 rest).2 := hmem
      rcases List.mem_append.mp hmem' with h | h
      · cases h
      · exact h2 h
    | watch now dT eT =>
      have hoff1 : (stepRun s (Step.watch now dT eT)).1.flashlighton = false := by
        rw [show (stepRun s (Step.watch now dT eT)).1 = (checkStatusMap s now dT eT).1 from rfl,
          (checkStatusMap_fields s now dT eT).2.2]
        exact hoff
      obtain ⟨h1, h2⟩ := ih (stepRun s (Step.watch now dT eT)).1 hoff1 hzr
      refine ⟨h1, ?_⟩
      intro hmem
      have hmem' : Action.flashOn ∈ (stepRun s (Step.watch now dT eT)).2 ++
          (run (stepRun s (Step.watch now dT eT)).1 rest).2 := hmem
      rcases List.mem_append.mp hmem' with h | h
      · rcases checkStatusMap_actions s now dT eT _ h with h' | h' | h' | h'
        · exact Action.noConfusion h'
        · obtain ⟨l', hl⟩ := h'
          exact Action.noConfusion hl
        · exact Action.noConfusion h'
        · obtain ⟨l', hl⟩ := h'
          exact Action.noConfusion hl
      · exact h2 h
    | flash now lT =>
      have ht : lT = 0 := hzero now lT (List.mem_cons_self _ _)
      subst ht
      have hstep : stepRun s (Step.flash now 0) = (s, []) := operateFlashLightTick_zero s now
      obtain ⟨h1, h2⟩ := ih s hoff hzr
      constructor
      · show (run (stepRun s (Step.flash now 0)).1 rest).1.flashlighton = false
        rw [hstep]
        exact h1
      · intro hmem
        have hmem' : Action.flashOn ∈ (stepRun s (Step.flash now 0)).2 ++
            (run (stepRun s (Step.flash now 0)).1 rest).2 := hmem
        rw [hstep] at hmem'
        rcases List.mem_append.mp hmem' with h | h
        · cases h
        · exact h2 h

/-! Claim theorems. -/

/-- C1: boundary behaviour of the severity classifier. The claim demands that
severities shorter than four characters (other than "OK") return false
without error; the code instead raises std::out_of_range on "", "A" and
"ACK", because severity.length()-4 wraps around in size_t and substr throws.
The specification-side IsClearedSpec treats them as not-cleared, and on
"X_ACK", "OK" and "NOT_OK" code and specification agree (true, true, false). -/
theorem C1_checkSeverityString_boundary :
    checkSeverityString "" = .error () ∧
    checkSeverityString "A" = .error () ∧
    checkSeverityString "ACK" = .error () ∧
    checkSeverityString "X_ACK" = .ok true ∧
    checkSeverityString "OK" = .ok true ∧
    checkSeverityString "NOT_OK" = .ok false ∧
    IsClearedSpec "" = false ∧
    IsClearedSpec "A" = false ∧
    IsClearedSpec "ACK" = false ∧
    IsClearedSpec "X_ACK" = true ∧
    IsClearedSpec "OK" = true ∧
    IsClearedSpec "NOT_OK" = false := by
  decide

/-- C2 counterexample: a single report carrying the 3-character non-cleared
severity "ACK" makes checkSeverityString throw before any mutation, so the
entity is never inserted: the live count stays 0 although the claim counts
this entity (its most recent report is non-cleared), demanding 1. -/
theorem C2_counterexample :
    getNumberOfAlarms (applyReports (initialState false false)
      [⟨"pv1", "ACK", "ALARM", 0, false, false⟩]) = 0 ∧
    specLiveCount [⟨"pv1", "ACK", "ALARM", 0, false, false⟩] = 1 := by
  decide

/-- C2 (amended): for every finite sequence of reports whose severities are
well formed (exactly "OK" or at least four characters long, so that
checkSeverityString cannot throw), the count returned after applying the
sequence to a freshly constructed service equals the number of distinct
entity ids whose most recent report had a non-cleared severity. -/
theorem C2_live_count (d b : Bool) (reports : List AlarmStatusEntry)
    (hWF : ∀ e ∈ reports, severityWellFormed e.severity) :
    getNumberOfAlarms (applyReports (initialState d b) reports) = specLiveCount reports := by
  have hnodupK : (mapKeys (applyReports (initialState d b) reports).statusmap).Nodup :=
    nodup_keys_applyReports reports
  have hnodupL :
      (((reports.map AlarmStatusEntry.pvname).dedup).filter (liveAfter reports)).Nodup :=
    List.Nodup.filter _ (List.nodup_dedup _)
  have hmem : ∀ pv, pv ∈ mapKeys (applyReports (initialState d b) reports).statusmap ↔
      pv ∈ ((reports.map AlarmStatusEntry.pvname).dedup).filter (liveAfter reports) := by
    intro pv
    rw [mem_keys_applyReports reports hWF pv, List.mem_filter, List.mem_dedup]
    constructor
    · intro h
      exact ⟨liveAfter_true_mem h, h⟩
    · rintro ⟨-, h⟩
      exact h
  have hperm := (List.perm_ext_iff_of_nodup hnodupK hnodupL).mpr hmem
  have hlen : (mapKeys (applyReports (initialState d b) reports).statusmap).length =
      (applyReports (initialState d b) reports).statusmap.length := by
    simp [mapKeys]
  rw [getNumberOfAlarms, ← hlen, hperm.length_eq]
  rfl

/-- C2 witness: the amended theorem applied to the scenario of the claim,
report ("pv1", "MAJOR", "ALARM") followed by ("pv1", "MAJOR_ACK", "ALARM"). -/
theorem C2_witness :
    getNumberOfAlarms (applyReports (initialState false false)
        [mkEntry "pv1" "MAJOR" "ALARM" 0, mkEntry "pv1" "MAJOR_ACK" "ALARM" 1]) =
      specLiveCount [mkEntry "pv1" "MAJOR" "ALARM" 0, mkEntry "pv1" "MAJOR_ACK" "ALARM" 1] :=
  C2_live_count false false _ (by decide)

/-- C3: the oldestAlarm timestamp is assigned a report's trigger time only
when it currently holds the sentinel value, is never changed by a report
otherwise (in particular removals leave it unchanged, so it is never
recomputed to the true minimum), and a watcher tick resets it to the
sentinel exactly when it observes an empty status map. -/
theorem C3_oldest_trigger_tracking (s : AlarmServerConnector) (e : AlarmStatusEntry)
    (now : Time) (dT eT lT : Nat) :
    (checkSeverityString e.severity ≠ .ok false →
      (notifyStatusChange s e).oldestAlarm = s.oldestAlarm) ∧
    (s.oldestAlarm ≠ noAlarmActive →
      (notifyStatusChange s e).oldestAlarm = s.oldestAlarm) ∧
    (checkSeverityString e.severity = .ok false → s.oldestAlarm = noAlarmActive →
      (notifyStatusChange s e).oldestAlarm = e.triggertime) ∧
    ((checkStatusMap s now dT eT).1.oldestAlarm =
      if s.statusmap.length = 0 then noAlarmActive else s.oldestAlarm) ∧
    ((operateFlashLightTick s now lT).1.oldestAlarm = s.oldestAlarm) := by
  refine ⟨?_, ?_, ?_, checkStatusMap_oldest s now dT eT,
    (operateFlashLightTick_fields s now lT).2.2.2⟩
  · intro h
    cases hc : checkSeverityString e.severity with
    | error u =>
      cases u
      rw [notifyStatusChange_of_raise hc]
    | ok bb =>
      cases bb
      · exact absurd hc h
      · rw [notifyStatusChange_of_cleared hc]
  · intro hold
    cases hc : checkSeverityString e.severity with
    | error u =>
      cases u
      rw [notifyStatusChange_of_raise hc]
    | ok bb =>
      cases bb
      · cases hf : mapFind s.statusmap e.pvname with
        | none =>
          rw [notifyStatusChange_live_absent hc hf]
          exact if_neg hold
        | some old =>
          rw [notifyStatusChange_live_present hc hf]
          exact if_neg hold
      · rw [notifyStatusChange_of_cleared hc]
  · intro hc hold
    cases hf : mapFind s.statusmap e.pvname with
    | none =>
      rw [notifyStatusChange_live_absent hc hf]
      exact if_pos hold
    | some old =>
      rw [notifyStatusChange_live_present hc hf]
      exact if_pos hold

/-- C3 witness: a first live report on a fresh service stamps oldestAlarm
with its trigger time, and a tick on the empty map yields the sentinel. -/
theorem C3_witness :
    checkSeverityString "MAJOR" = Except.ok false ∧
    (notifyStatusChange (initialState false false) (mkEntry "pv1" "MAJOR" "ALARM" 7)).oldestAlarm
      = 7 ∧
    (checkStatusMap (initialState false false) 100 5 5).1.oldestAlarm = noAlarmActive := by
  refine ⟨by decide, ?_, ?_⟩
  · exact (C3_oldest_trigger_tracking (initialState false false)
      (mkEntry "pv1" "MAJOR" "ALARM" 7) 100 5 5 5).2.2.1 (by decide) rfl
  · exact ((C3_oldest_trigger_tracking (initialState false false)
      (mkEntry "pv1" "MAJOR" "ALARM" 7) 100 5 5 5).2.2.2.1).trans (if_pos rfl)

/-- C4 counterexample: the claim says construction fails exactly when the
second flag is true while the first (desktop mode) is true; on the code the
combination (true, true) succeeds — Beedo with desktop mode is the intended
use — and it is (false, true) that throws std::logic_error. -/
theorem C4_counterexample :
    construct true true = .ok (initialState true true) ∧
    construct false true = .error () := by
  decide

/-- C4 (amended): the constructor raises its configuration error exactly
when the Beedo flag is set while desktop mode is off (the Beedo opto-acoustic
alarm is desktop-mode only); every other combination succeeds. -/
theorem C4_construct_error_iff :
    ∀ d b : Bool, construct d b = .error () ↔ (d = false ∧ b = true) := by
  decide

/-- C4 witness: the amended characterization applied at the failing
combination (desktop mode off, Beedo on). -/
theorem C4_witness : construct false true = .error () :=
  (C4_construct_error_iff false true).mpr ⟨rfl, rfl⟩

/-- C5 counterexample: an existing record with triggerTime 5 and an incoming
report whose associated time is also 5. The claim ("not older than", i.e.
greater or equal) demands the severity be overwritten to "MINOR"; the code
compares strictly and keeps "MAJOR". -/
theorem C5_counterexample :
    AlarmStatusEntry.update ⟨"pv", "MAJOR", "ALARM", 5, false, false⟩
        ⟨"pv", "MINOR", "HIGH", 5, false, false⟩ =
      ⟨"pv", "MAJOR", "ALARM", 5, false, false⟩ := by
  decide

/-- C5 (amended): when a non-cleared report arrives for a tracked entity,
the stored record becomes the update of the existing one, and severity and
status are overwritten exactly when the incoming time is strictly greater
than the stored triggerTime; a report carrying the same timestamp does not
overwrite. -/
theorem C5_update_strict (s : AlarmServerConnector) (e old : AlarmStatusEntry)
    (hf : mapFind s.statusmap e.pvname = some old)
    (hc : checkSeverityString e.severity = .ok false) :
    mapFind (notifyStatusChange s e).statusmap e.pvname = some (old.update e) ∧
    (old.update e).severity =
      (if old.triggertime < e.triggertime then e.severity else old.severity) ∧
    (old.update e).status =
      (if old.triggertime < e.triggertime then e.status else old.status) := by
  refine ⟨?_, ?_, ?_⟩
  · rw [notifyStatusChange_live_present hc hf]
    show mapFind (mapUpdate s.statusmap e.pvname (fun x => x.update e)) e.pvname = _
    rw [mapFind_mapUpdate, if_pos rfl, hf]
    rfl
  · by_cases h : old.triggertime < e.triggertime <;> simp [AlarmStatusEntry.update, h]
  · by_cases h : old.triggertime < e.triggertime <;> simp [AlarmStatusEntry.update, h]

/-- C5 witness: a strictly newer report for a tracked entity overwrites
severity and status while keeping the stored trigger time. -/
theorem C5_witness :
    mapFind (notifyStatusChange
        { desktopVersion := false, activateBeedo := false,
          statusmap := [("pv", ⟨"pv", "MAJOR", "ALARM", 5, false, false⟩)],
          oldestAlarm := 5, flashlighton := false }
        ⟨"pv", "MINOR", "HIGH", 6, false, false⟩).statusmap "pv" =
      some (AlarmStatusEntry.update ⟨"pv", "MAJOR", "ALARM", 5, false, false⟩
        ⟨"pv", "MINOR", "HIGH", 6, false, false⟩) ∧
    (AlarmStatusEntry.update ⟨"pv", "MAJOR", "ALARM", 5, false, false⟩
        ⟨"pv", "MINOR", "HIGH", 6, false, false⟩).severity = "MINOR" ∧
    (AlarmStatusEntry.update ⟨"pv", "MAJOR", "ALARM", 5, false, false⟩
        ⟨"pv", "MINOR", "HIGH", 6, false, false⟩).triggertime = 5 := by
  have h := C5_update_strict
    { desktopVersion := false, activateBeedo := false,
      statusmap := [("pv", ⟨"pv", "MAJOR", "ALARM", 5, false, false⟩)],
      oldestAlarm := 5, flashlighton := false }
    ⟨"pv", "MINOR", "HIGH", 6, false, false⟩ ⟨"pv", "MAJOR", "ALARM", 5, false, false⟩
    (by decide) (by decide)
  exact ⟨h.1, h.2.1.trans (by decide), by decide⟩

/-- C6: the desktop one-shot flag is idempotent and excludes the entity from
every later desktop batch: setting the flag twice leaves it true, and in any
state with distinct keys and key-coherent entries (both hold in every
reachable state), an entity whose record already has the flag set is left
untouched by prepareDesktopNotification and never appears in the batch it
produces, whatever the current time and timeout. -/
theorem C6_desktop_flag_oneshot (x : AlarmStatusEntry) (s : AlarmServerConnector)
    (now : Time) (t : Nat) (pv : String) (old : AlarmStatusEntry)
    (hn : (mapKeys s.statusmap).Nodup)
    (hcoh : ∀ p ∈ s.statusmap, p.2.pvname = p.1)
    (hf : mapFind s.statusmap pv = some old)
    (hflag : old.desktopNotificationSent = true) :
    ((x.setDesktopNotificationSent true).setDesktopNotificationSent
        true).desktopNotificationSent = true ∧
    mapFind (prepareDesktopNotification s now t).1.statusmap pv = some old ∧
    ∀ bb ∈ (prepareDesktopNotification s now t).2, bb.pvname ≠ pv := by
  refine ⟨rfl, ?_, ?_⟩
  · unfold prepareDesktopNotification
    split
    · exact hf
    · show mapFind (s.statusmap.map (fun p => (p.1, desktopMark now t p.2))) pv = some old
      rw [mapFind_mapValuesSimple, hf]
      show some (desktopMark now t old) = some old
      unfold desktopMark desktopDue
      rw [hflag]
      simp
  · intro bb hbb
    unfold prepareDesktopNotification at hbb
    split at hbb
    · cases hbb
    · rcases List.mem_map.mp hbb with ⟨p, hp, rfl⟩
      rcases List.mem_filter.mp hp with ⟨hpm, hdue⟩
      intro hpv
      have h1 : p.2.pvname = p.1 := hcoh p hpm
      have h2 : p.1 = pv := by
        rw [← h1]
        exact hpv
      have h3 : mapFind s.statusmap p.1 = some p.2 := mapFind_of_mem_nodup hn hpm
      rw [h2, hf] at h3
      have h4 : old = p.2 := Option.some.inj h3
      rw [← h4] at hdue
      unfold desktopDue at hdue
      rw [hflag] at hdue
      simp at hdue

/-- C6 witness: a two-entry map where pv1 has already been notified: the
record is untouched and pv1 is not in the produced batch (pv2 is). -/
theorem C6_witness :
    (((⟨"pvx", "MAJOR", "ALARM", 0, false, false⟩ : AlarmStatusEntry).setDesktopNotificationSent
        true).setDesktopNotificationSent true).desktopNotificationSent = true ∧
    mapFind (prepareDesktopNotification
        { desktopVersion := false, activateBeedo := false,
          statusmap := [("pv1", ⟨"pv1", "MAJOR", "ALARM", 0, true, false⟩),
            ("pv2", ⟨"pv2", "MINOR", "ALARM", 0, false, false⟩)],
          oldestAlarm := 0, flashlighton := false } 100 1).1.statusmap "pv1" =
      some ⟨"pv1", "MAJOR", "ALARM", 0, true, false⟩ := by
  have h := C6_desktop_flag_oneshot ⟨"pvx", "MAJOR", "ALARM", 0, false, false⟩
    { desktopVersion := false, activateBeedo := false,
      statusmap := [("pv1", ⟨"pv1", "MAJOR", "ALARM", 0, true, false⟩),
        ("pv2", ⟨"pv2", "MINOR", "ALARM", 0, false, false⟩)],
      oldestAlarm := 0, flashlighton := false } 100 1 "pv1"
    ⟨"pv1", "MAJOR", "ALARM", 0, true, false⟩ (by decide) (by decide) (by decide) rfl
  exact ⟨h.1, h.2.1⟩

/-- C7: in server mode with a non-zero e-mail timeout, the e-mail batch
contains exactly the (marked copies of the) records whose e-mail flag is
unset — there is no per-record trigger-time test, unlike the desktop path —
every batch member carries the flag set, and every stored record is marked
by the call. -/
theorem C7_email_batch (s : AlarmServerConnector) (t : Nat)
    (hd : s.desktopVersion = false) (ht : ¬ t = 0) :
    (∀ bb : AlarmStatusEntry, bb ∈ (prepareEMailNotification s t).2 ↔
      ∃ p ∈ s.statusmap, p.2.emailNotificationSent = false ∧
        bb = p.2.setEmailNotificationSent true) ∧
    (∀ bb ∈ (prepareEMailNotification s t).2, bb.emailNotificationSent = true) ∧
    (∀ pv old, mapFind s.statusmap pv = some old →
      mapFind (prepareEMailNotification s t).1.statusmap pv = some (emailMark old)) := by
  have hne : ¬ s.desktopVersion = true := by
    rw [hd]
    exact Bool.false_ne_true
  have hps : prepareEMailNotification s t =
      ({ s with statusmap := s.statusmap.map (fun p => (p.1, emailMark p.2)) },
       (s.statusmap.filter (fun p => !p.2.emailNotificationSent)).map
         (fun p => p.2.setEmailNotificationSent true)) := by
    unfold prepareEMailNotification
    rw [if_neg hne, if_neg ht]
  refine ⟨?_, ?_, ?_⟩
  · intro bb
    rw [hps]
    constructor
    · intro h
      rcases List.mem_map.mp h with ⟨p, hp, rfl⟩
      rcases List.mem_filter.mp hp with ⟨hpm, hfl⟩
      refine ⟨p, hpm, ?_, rfl⟩
      simpa using hfl
    · rintro ⟨p, hpm, hfl, rfl⟩
      exact List.mem_map.mpr ⟨p, List.mem_filter.mpr ⟨hpm, by simp [hfl]⟩, rfl⟩
  · intro bb h
    rw [hps] at h
    rcases List.mem_map.mp h with ⟨p, hp, rfl⟩
    rfl
  · intro pv old hfind
    rw [hps]
    show mapFind (s.statusmap.map (fun p => (p.1, emailMark p.2))) pv = some (emailMark old)
    rw [mapFind_mapValuesSimple, hfind]
    rfl

/-- C7 witness: a record whose trigger time lies far in the future is still
marked by the e-mail path — no per-record trigger-time test. -/
theorem C7_witness :
    mapFind (prepareEMailNotification
        { desktopVersion := false, activateBeedo := false,
          statusmap := [("pv1", ⟨"pv1", "MAJOR", "ALARM", 0, false, true⟩),
            ("pv2", ⟨"pv2", "MINOR", "ALARM", 1000000, false, false⟩)],
          oldestAlarm := 0, flashlighton := false } 3).1.statusmap "pv2" =
      some (emailMark ⟨"pv2", "MINOR", "ALARM", 1000000, false, false⟩) :=
  (C7_email_batch
    { desktopVersion := false, activateBeedo := false,
      statusmap := [("pv1", ⟨"pv1", "MAJOR", "ALARM", 0, false, true⟩),
        ("pv2", ⟨"pv2", "MINOR", "ALARM", 1000000, false, false⟩)],
      oldestAlarm := 0, flashlighton := false } 3 rfl (by decide)).2.2 "pv2"
    ⟨"pv2", "MINOR", "ALARM", 1000000, false, false⟩ (by decide)

/-- C8: with the laboratory timeout 0 on every flash-light tick, no
execution ever invokes SignalOn (the FlashLight::switchOn collaborator call)
and the flashlighton flag never becomes true, whatever reports arrive and
however long alarms stay active. -/
theorem C8_lab_timeout_zero_no_signal (d b : Bool) (trace : List Step)
    (hzero : ∀ now t, Step.flash now t ∈ trace → t = 0) :
    (run (initialState d b) trace).1.flashlighton = false ∧
    Action.flashOn ∉ (run (initialState d b) trace).2 :=
  run_flashlight_off trace (initialState d b) rfl hzero

/-- C8 witness: a concrete interleaving of flash ticks with timeout 0, a
report and a watcher tick never turns the flash light on. -/
theorem C8_witness :
    (run (initialState false false)
      [Step.flash 5 0, Step.report (mkEntry "pv1" "MAJOR" "ALARM" 1),
        Step.watch 8 1 1, Step.flash 9 0]).1.flashlighton = false ∧
    Action.flashOn ∉ (run (initialState false false)
      [Step.flash 5 0, Step.report (mkEntry "pv1" "MAJOR" "ALARM" 1),
        Step.watch 8 1 1, Step.flash 9 0]).2 := by
  have hz : ∀ now t, Step.flash now t ∈
      ([Step.flash 5 0, Step.report (mkEntry "pv1" "MAJOR" "ALARM" 1),
        Step.watch 8 1 1, Step.flash 9 0] : List Step) → t = 0 := by
    intro now t h
    simp only [List.mem_cons, List.not_mem_nil, or_false] at h
    rcases h with h | h | h | h
    · exact (Step.flash.injEq _ _ _ _).mp h |>.2
    · exact absurd h (by simp)
    · exact absurd h (by simp)
    · exact (Step.flash.injEq _ _ _ _).mp h |>.2
  exact C8_lab_timeout_zero_no_signal false false _ hz

/-- C9: a non-cleared report for a tracked entity replaces the record by its
update, which keeps entityId, triggerTime and both one-shot flags unchanged;
and across every core operation (report, watcher tick, flash-light tick) an
entity present before and after keeps its one-shot flags monotone — a flag
that is true is never reset. -/
theorem C9_update_frame_oneshot (s : AlarmServerConnector) (e old : AlarmStatusEntry)
    (st : Step) (pv : String) (b a : AlarmStatusEntry) :
    (mapFind s.statusmap e.pvname = some old → checkSeverityString e.severity = .ok false →
      mapFind (notifyStatusChange s e).statusmap e.pvname = some (old.update e) ∧
      (old.update e).pvname = old.pvname ∧
      (old.update e).triggertime = old.triggertime ∧
      (old.update e).desktopNotificationSent = old.desktopNotificationSent ∧
      (old.update e).emailNotificationSent = old.emailNotificationSent) ∧
    (mapFind s.statusmap pv = some b → mapFind (stepRun s st).1.statusmap pv = some a →
      flagsMono b a) := by
  constructor
  · intro hf hc
    refine ⟨?_, (update_frame old e).1, (update_frame old e).2.1,
      (update_frame old e).2.2.1, (update_frame old e).2.2.2⟩
    rw [notifyStatusChange_live_present hc hf]
    show mapFind (mapUpdate s.statusmap e.pvname (fun x => x.update e)) e.pvname = _
    rw [mapFind_mapUpdate, if_pos rfl, hf]
    rfl
  · intro hb ha
    exact stepRun_mono hb ha

/-- C9 witness: an update by a strictly newer report keeps the trigger time
and the already-set desktop flag of the stored record. -/
theorem C9_witness :
    mapFind (notifyStatusChange
        { desktopVersion := false, activateBeedo := false,
          statusmap := [("pv", ⟨"pv", "MAJOR", "ALARM", 5, true, false⟩)],
          oldestAlarm := 5, flashlighton := false }
        ⟨"pv", "MINOR", "HIGH", 6, false, false⟩).statusmap "pv" =
      some (AlarmStatusEntry.update ⟨"pv", "MAJOR", "ALARM", 5, true, false⟩
        ⟨"pv", "MINOR", "HIGH", 6, false, false⟩) ∧
    flagsMono ⟨"pv", "MAJOR", "ALARM", 5, true, false⟩ ⟨"pv", "MINOR", "HIGH", 5, true, false⟩ := by
  have h := C9_update_frame_oneshot
    { desktopVersion := false, activateBeedo := false,
      statusmap := [("pv", ⟨"pv", "MAJOR", "ALARM", 5, true, false⟩)],
      oldestAlarm := 5, flashlighton := false }
    ⟨"pv", "MINOR", "HIGH", 6, false, false⟩ ⟨"pv", "MAJOR", "ALARM", 5, true, false⟩
    (Step.report ⟨"pv", "MINOR", "HIGH", 6, false, false⟩) "pv"
    ⟨"pv", "MAJOR", "ALARM", 5, true, false⟩ ⟨"pv", "MINOR", "HIGH", 5, true, false⟩
  exact ⟨(h.1 (by decide) (by decide)).1, h.2 (by decide) (by decide)⟩

/-- C10: in desktop mode the e-mail path is inert: prepareEMailNotification
returns the state unchanged with an empty batch (so no record's e-mail flag
is marked), for every timeout, and no execution from a desktop-mode state
ever dispatches an e-mail batch to the collaborator. -/
theorem C10_desktop_no_email (s : AlarmServerConnector) (t : Nat) (trace : List Step)
    (hd : s.desktopVersion = true) :
    prepareEMailNotification s t = (s, []) ∧
    ∀ l, Action.emailBatch l ∉ (run s trace).2 :=
  ⟨prepareEMailNotification_desktop s t hd, run_desktop_no_email trace s hd⟩

/-- C10 witness: a desktop-mode instance performs no e-mail work on a
concrete watcher tick. -/
theorem C10_witness :
    prepareEMailNotification (initialState true false) 5 = (initialState true false, []) ∧
    Action.emailBatch [] ∉ (run (initialState true false) [Step.watch 100 1 1]).2 := by
  have h := C10_desktop_no_email (initialState true false) 5 [Step.watch 100 1 1] rfl
  exact ⟨h.1, h.2 []⟩

end AlarmNotifications
